import Mathlib

/-!
Shallow embedding of the tabiew core: the command grammar
(src/handler/command.rs), the action algebra and the reducer arms relevant to
the verified properties (src/handler/action.rs), the snake-case name generator
(src/misc/type_ext.rs) and the per-tab state (src/tui/pane.rs).  Components of
the repository that are not under src/ (the root App state, the catalog's
register, the table-view widget state) are modelled from the specification and
marked as such in their doc comments.  External collaborators (file readers,
the SQL engine, the random number generator) enter as explicit oracle inputs.
-/

namespace Tabiew

/-- Model of a polars DataFrame: the core treats it as opaque (spec section 3),
using only its height.  The tag field keeps distinct frames distinguishable. -/
structure DataFrame where
  height : Nat
  tag : Nat
deriving DecidableEq

/-- Modelled from the spec: TypeInferer (src/misc/type_inferer.rs is not under
src/).  The infer command chains builder calls int(), float(), boolean(),
date(), datetime(); modelled as flags, default all off. -/
structure TypeInferer where
  int : Bool := false
  float : Bool := false
  boolean : Bool := false
  date : Bool := false
  datetime : Bool := false
deriving DecidableEq

/-- JsonFormat from src/writer (declaration only; carried by actions). -/
inductive JsonFormat where
  | Json
  | JsonLine
deriving DecidableEq

/-- InlineQueryType from src/tui/popups/inline_query.rs (declaration only). -/
inductive InlineQueryType where
  | Filter
  | Order
deriving DecidableEq

/-- The action algebra (enum AppAction, src/handler/action.rs).  Source and
Destination values are represented by their path strings.  Constructors whose
payloads and semantics play no role in any claim (pure cursor movements, modal
scrolling, palette editing, theme handling) are omitted; the reducer model maps
actions outside the modelled arms to a distinguished unmodeled result. -/
inductive AppAction where
  | NoAction
  | GotoLine (line : Nat)
  | GoToLineShow
  | SwitchToSchema
  | TableGotoRandom
  | TableGoUp (n : Nat)
  | TableGoUpHalfPage
  | TableGoUpFullPage
  | TableGoDown (n : Nat)
  | TableGoDownHalfPage
  | TableGoDownFullPage
  | TableSelect (s : String)
  | TableOrder (s : String)
  | TableFilter (s : String)
  | TableQuery (s : String)
  | TableSetDataFrame (df : DataFrame)
  | TableReset
  | TableInferColumns (ti : TypeInferer)
  | InlineQueryShow (t : InlineQueryType)
  | SearchCommit
  | SearchRollback
  | TabNewQuery (s : String)
  | TabSelect (i : Nat)
  | TabRemove (i : Nat)
  | TabRename (i : Nat) (name : String)
  | ExportDsv (destination : String) (separator : Char) (quote : Char) (header : Bool)
  | ExportParquet (d : String)
  | ExportJson (d : String) (fmt : JsonFormat)
  | ExportArrow (d : String)
  | ImportDsv (source : String) (separator : Char) (has_header : Bool) (quote : Char)
  | ImportParquet (s : String)
  | ImportJson (s : String) (fmt : JsonFormat)
  | ImportArrow (s : String)
  | ImportSqlite (s : String)
  | ImportFwf (source : String) (widths : List Nat) (separator_length : Nat)
      (flexible_width : Bool) (has_header : Bool)
  | ScatterPlot (x : String) (y : String) (groupby : List String)
  | HistogramPlot (col : String) (buckets : Nat)
  | RegisterDataFrame (name : String)
  | ThemeSelectorShow
  | Help
  | Quit
deriving DecidableEq

/-! ## Command grammar (src/handler/command.rs)

Error values model anyhow errors; where the source interpolates values into a
message the model concatenates, and messages never asserted by a claim may be
abbreviated.  Only the ok/error structure and the parsed actions matter. -/

/-- str::split_once for the space character, over the character list:
splits at the first occurrence, dropping it. -/
def splitOnceSpace : List Char → Option (List Char × List Char)
  | [] => none
  | c :: cs =>
    if c = ' ' then some ([], cs)
    else (splitOnceSpace cs).map fun p => (c :: p.1, p.2)

/-- Decimal value of a digit character. -/
def decimalDigit? (c : Char) : Option Nat :=
  if 48 ≤ c.toNat ∧ c.toNat ≤ 57 then some (c.toNat - 48) else none

/-- Decimal evaluation of a digit run; fails at the first non-digit. -/
def decimalAux : List Char → Nat → Option Nat
  | [], acc => some acc
  | c :: cs, acc =>
    match decimalDigit? c with
    | some d => decimalAux cs (10 * acc + d)
    | none => none

/-- usize::from_str over the character data: a nonempty all-digit string.
Rust also accepts a leading plus sign and bounds the value by usize::MAX;
neither difference is exercised by any claim. -/
def str_parse_nat (s : String) : Option Nat :=
  match s.data with
  | [] => none
  | l => decimalAux l 0

/-- The question-mark propagation around usize parsing in the command
parsers. -/
def parse_usize (s : String) : Except String Nat :=
  match str_parse_nat s with
  | some n => .ok n
  | none => .error ("invalid usize " ++ s)

/-- Whitespace class of the regex \s and of char::is_whitespace, restricted to
its ASCII members; command lines are single-line ASCII-delimited input. -/
def isWs (c : Char) : Bool :=
  c = ' ' || c = '\t' || c = '\n' || c = '\r' || c = '\x0b' || c = '\x0c'

/-- str::trim: removes leading and trailing whitespace. -/
def trimWs (l : List Char) : List Char :=
  ((l.dropWhile isWs).reverse.dropWhile isWs).reverse

/-- str::split(c): splits at every occurrence of the character, keeping empty
segments, and yields at least one segment. -/
def splitAtChar (c : Char) : List Char → List (List Char)
  | [] => [[]]
  | x :: xs =>
    if x = c then [] :: splitAtChar c xs
    else
      match splitAtChar c xs with
      | [] => [[x]]
      | h :: t => (x :: h) :: t

/-- Modelled from the spec: the external shell_words::split collaborator used
by the scatter and hist parsers.  POSIX quoting is out of scope (spec section
1); modelled as whitespace word splitting that never fails. -/
def shell_words_split (s : String) : Except String (List String) :=
  .ok (((splitAtChar ' ' s.data).filter fun l => l ≠ []).map fun l => String.mk l)

/-- CsvImportArgs (src/handler/command.rs, import module). -/
structure CsvImportArgs where
  separator : Option Char := none
  quote : Option Char := none
  has_header : Option Bool := none
deriving DecidableEq

/-- CsvImportArgs::update: one bracketed csv option. -/
def CsvImportArgs.update (a : CsvImportArgs) (arg : String) : Except String CsvImportArgs :=
  if arg = "no-header" || arg = "nh" then
    match a.has_header with
    | none => .ok { a with has_header := some false }
    | some _ => .error ("no-header is allowed only once")
  else if arg = "\\t" then
    match a.separator with
    | none => .ok { a with separator := some '\t' }
    | some _ =>
      match a.quote with
      | none => .ok { a with quote := some '\t' }
      | some _ => .error ("More than two character arguments provided: " ++ arg)
  else
    match arg.data with
    | [c] =>
      if c.toNat < 128 then
        match a.separator with
        | none => .ok { a with separator := some c }
        | some _ =>
          match a.quote with
          | none => .ok { a with quote := some c }
          | some _ => .error ("More than two character arguments provided: " ++ arg)
      else .error ("Invalid argument: " ++ arg)
    | _ => .error ("Invalid argument: " ++ arg)

/-- FwfImportArgs (src/handler/command.rs, import module). -/
structure FwfImportArgs where
  widths : List Nat := []
  separator_length : Option Nat := none
  flexible_width : Option Bool := none
  has_header : Option Bool := none
deriving DecidableEq

/-- FwfImportArgs::update: one bracketed fwf option.  The first integer becomes
the separator length, later integers are appended to the widths. -/
def FwfImportArgs.update (a : FwfImportArgs) (arg : String) : Except String FwfImportArgs :=
  if arg = "flexible-width" || arg = "fw" then
    match a.flexible_width with
    | none => .ok { a with flexible_width := some true }
    | some _ => .error ("flexible-width is allowed only once")
  else if arg = "no-header" || arg = "nh" then
    match a.has_header with
    | none => .ok { a with has_header := some false }
    | some _ => .error ("no-header is allowed only once")
  else
    match str_parse_nat arg with
    | some w =>
      match a.separator_length with
      | none => .ok { a with separator_length := some w }
      | some _ => .ok { a with widths := a.widths ++ [w] }
    | none => .error ("Invalid argument: " ++ arg)

/-- The args.split(' ').map(str::trim).filter(non-empty) pipeline shared by
csv_with_args and fwf_with_args. -/
def argTokens (args : List Char) : List String :=
  (((splitAtChar ' ' args).map trimWs).filter fun l => l ≠ []).map fun l => String.mk l

/-- The try_fold of FwfImportArgs::update in fwf_with_args. -/
def fwf_args_fold (tokens : List String) : Except String FwfImportArgs :=
  tokens.foldlM FwfImportArgs.update {}

/-- The try_fold of CsvImportArgs::update in csv_with_args. -/
def csv_args_fold (tokens : List String) : Except String CsvImportArgs :=
  tokens.foldlM CsvImportArgs.update {}

/-- Leftmost unanchored match of a pattern LIT\s+(?<path>.*) at the head of the
input: the literal, then a maximal nonempty whitespace run consumed by the
greedy \s+, then path captures the remainder. -/
def litSpaceHere (lit s : List Char) : Option (List Char) :=
  if lit.isPrefixOf s then
    match s.drop lit.length with
    | [] => none
    | c :: cs => if isWs c then some (cs.dropWhile isWs) else none
  else none

/-- Leftmost unanchored match of LIT\s+(?<path>.*) anywhere in the input, as
Regex::captures finds it: start positions are scanned left to right. -/
def litSpaceRest (lit : List Char) : List Char → Option (List Char)
  | [] => litSpaceHere lit []
  | c :: cs => (litSpaceHere lit (c :: cs)).orElse fun _ => litSpaceRest lit cs

/-- Backtracking of the greedy args capture in LIT\s*\[(?<args>…)\]\s+(?<path>.*):
splits at the last right bracket that is followed by at least one whitespace
character; path is the remainder after the maximal whitespace run. -/
def bracketSplit : List Char → Option (List Char × List Char)
  | [] => none
  | c :: cs =>
    match bracketSplit cs with
    | some p => some (c :: p.1, p.2)
    | none =>
      if c = ']' then
        match cs with
        | [] => none
        | d :: _ => if isWs d then some ([], cs.dropWhile isWs) else none
      else none

/-- Match of LIT\s*\[(?<args>…)\]\s+(?<path>.*) at the head of the input.
needOne is true for the csv pattern, whose args capture is .+ rather than .* . -/
def litBracketHere (lit s : List Char) (needOne : Bool) : Option (List Char × List Char) :=
  if lit.isPrefixOf s then
    match (s.drop lit.length).dropWhile isWs with
    | '[' :: inner =>
      match bracketSplit inner with
      | some p => if needOne && p.1 = [] then none else some p
      | none => none
    | _ => none
  else none

/-- Leftmost unanchored match of the bracketed pattern anywhere in the input. -/
def litBracketRest (lit : List Char) (needOne : Bool) : List Char → Option (List Char × List Char)
  | [] => litBracketHere lit [] needOne
  | c :: cs => (litBracketHere lit (c :: cs) needOne).orElse fun _ => litBracketRest lit needOne cs

/-- csv_no_args: ImportDsv with comma separator, double quote, header. -/
def csv_no_args (path : List Char) : Except String AppAction :=
  .ok (.ImportDsv (String.mk path) ',' true '"')

/-- csv_with_args: bracketed options folded by CsvImportArgs::update. -/
def csv_with_args (args path : List Char) : Except String AppAction := do
  let a ← csv_args_fold (argTokens args)
  .ok (.ImportDsv (String.mk path) (a.separator.getD ',') (a.has_header.getD true)
    (a.quote.getD '"'))

/-- parquet_no_args. -/
def parquet_no_args (path : List Char) : Except String AppAction :=
  .ok (.ImportParquet (String.mk path))

/-- json_no_args. -/
def json_no_args (path : List Char) : Except String AppAction :=
  .ok (.ImportJson (String.mk path) .Json)

/-- jsonl_no_args. -/
def jsonl_no_args (path : List Char) : Except String AppAction :=
  .ok (.ImportJson (String.mk path) .JsonLine)

/-- arrow_no_args. -/
def arrow_no_args (path : List Char) : Except String AppAction :=
  .ok (.ImportArrow (String.mk path))

/-- sqlite_no_args. -/
def sqlite_no_args (path : List Char) : Except String AppAction :=
  .ok (.ImportSqlite (String.mk path))

/-- fwf_no_args: ImportFwf with empty widths, separator length 0, fixed width,
header present. -/
def fwf_no_args (path : List Char) : Except String AppAction :=
  .ok (.ImportFwf (String.mk path) [] 0 false true)

/-- fwf_with_args: bracketed options folded by FwfImportArgs::update. -/
def fwf_with_args (args path : List Char) : Except String AppAction := do
  let a ← fwf_args_fold (argTokens args)
  .ok (.ImportFwf (String.mk path) a.widths (a.separator_length.getD 0)
    (a.flexible_width.getD false) (a.has_header.getD true))

/-- The import sub-grammar (import::entry): the nine unanchored regexes are
tried in declaration order and the first whose pattern matches anywhere in the
argument string wins; csv and fwf appear first in their no-option form. -/
def importRegexTable : List (List Char → Option (Except String AppAction)) :=
  [ fun q => (litSpaceRest ("csv".data) q).map csv_no_args,
    fun q => (litBracketRest ("csv".data) true q).map fun p => csv_with_args p.1 p.2,
    fun q => (litSpaceRest ("parquet".data) q).map parquet_no_args,
    fun q => (litSpaceRest ("json".data) q).map json_no_args,
    fun q => (litSpaceRest ("jsonl".data) q).map jsonl_no_args,
    fun q => (litSpaceRest ("arrow".data) q).map arrow_no_args,
    fun q => (litSpaceRest ("sqlite".data) q).map sqlite_no_args,
    fun q => (litSpaceRest ("fwf".data) q).map fwf_no_args,
    fun q => (litBracketRest ("fwf".data) false q).map fun p => fwf_with_args p.1 p.2 ]

/-- Parser of the import entry. -/
def importParseFn (query : String) : Except String AppAction :=
  (importRegexTable.findSome? fun f => f query.data).getD
    (.error ("Import should provide format and path"))

/-- Parser of the export entry (export::entry): format before the first space,
path after it; csv and tsv export as DSV with fixed quote and header. -/
def exportParseFn (query : String) : Except String AppAction :=
  match splitOnceSpace query.data with
  | none => .error ("Export should provide format and path")
  | some p =>
    let fmt := String.mk p.1
    let path := String.mk p.2
    if fmt = "csv" then .ok (.ExportDsv path ',' '"' true)
    else if fmt = "tsv" then .ok (.ExportDsv path '\t' '"' true)
    else if fmt = "parquet" then .ok (.ExportParquet path)
    else if fmt = "json" then .ok (.ExportJson path .Json)
    else if fmt = "jsonl" then .ok (.ExportJson path .JsonLine)
    else if fmt = "arrow" then .ok (.ExportArrow path)
    else .error ("Unsupported format. Supported ones: csv, tsv, parquet, json, jsonl, and arrow")

/-- Parser of the goto entry. -/
def gotoParseFn (line : String) : Except String AppAction :=
  if line = "" then .ok .GoToLineShow
  else do
    let n ← parse_usize line
    .ok (.GotoLine (n - 1))

/-- Parser of the goup entry. -/
def goupParseFn (lines : String) : Except String AppAction :=
  if lines = "page" then .ok .TableGoUpFullPage
  else if lines = "half" then .ok .TableGoUpHalfPage
  else do
    let n ← parse_usize lines
    .ok (.TableGoUp n)

/-- Parser of the godown entry. -/
def godownParseFn (lines : String) : Except String AppAction :=
  if lines = "page" then .ok .TableGoDownFullPage
  else if lines = "half" then .ok .TableGoDownHalfPage
  else do
    let n ← parse_usize lines
    .ok (.TableGoDown n)

/-- Parser of the infer entry: fold type names into a TypeInferer. -/
def inferParseFn (args : String) : Except String AppAction := do
  let ti ← (splitAtChar ' ' args.data).foldlM
    (fun (ti : TypeInferer) l =>
      let s := String.mk l
      if s = "int" then .ok { ti with int := true }
      else if s = "float" then .ok { ti with float := true }
      else if s = "boolean" then .ok { ti with boolean := true }
      else if s = "date" then .ok { ti with date := true }
      else if s = "datetime" then .ok { ti with datetime := true }
      else if s = "all" then
        .ok { ti with int := true, float := true, boolean := true, date := true, datetime := true }
      else (.error ("Invalid type " ++ s) : Except String TypeInferer))
    {}
  .ok (.TableInferColumns ti)

/-- Parser of the scatter entry. -/
def scatterParseFn (args : String) : Except String AppAction := do
  let ws ← shell_words_split args
  match ws with
  | x :: y :: gb => .ok (.ScatterPlot x y gb)
  | _ => .error ("require two axes")

/-- Parser of the hist entry: one column, optional bucket count, default 38. -/
def histParseFn (col : String) : Except String AppAction := do
  let args ← shell_words_split col
  match args with
  | [c] => .ok (.HistogramPlot c 38)
  | [c, b] => do
    let n ← parse_usize b
    .ok (.HistogramPlot c n)
  | _ => .error ("histogram should be supplied with only one column")

/-- Prefix of a command entry: long form only, or a short and a long form.
(The source field name is a reserved word in Lean, hence CmdAlias.) -/
inductive CmdAlias where
  | long (l : String)
  | shortAndLong (s l : String)

/-- One row of the static ENTRIES registry. -/
structure Entry where
  alias_ : CmdAlias
  usage : String
  description : String
  parseFn : String → Except String AppAction

/-- The static ENTRIES array of command.rs, in declaration order. -/
def ENTRIES : List Entry :=
  [ { alias_ := .shortAndLong "Q" "query", usage := "Q <query>",
      description := "Query the data in Structured Query Language(SQL).",
      parseFn := fun query => .ok (.TableQuery query) },
    { alias_ := .shortAndLong "q" "quit", usage := "q",
      description := "Close all tables and quit Tabiew",
      parseFn := fun _ => .ok .Quit },
    { alias_ := .long "goto", usage := "goto <line_index>",
      description := "Jumps to the specified line",
      parseFn := gotoParseFn },
    { alias_ := .long "goup", usage := "goup <lines>",
      description := "Jump specified number of line(s) up",
      parseFn := goupParseFn },
    { alias_ := .long "godown", usage := "godown <lines>",
      description := "Jump specified number of line(s) down",
      parseFn := godownParseFn },
    { alias_ := .long "reset", usage := "reset",
      description := "Reset the data frame to its original state, removing all filters, orders, searches, selects, and aggregations effects.",
      parseFn := fun _ => .ok .TableReset },
    { alias_ := .long "help", usage := "help",
      description := "Show help",
      parseFn := fun _ => .ok .Help },
    { alias_ := .shortAndLong "S" "select", usage := "select <column_name(s)>",
      description := "Query the data frame for columns / functions",
      parseFn := fun query => .ok (.TableSelect query) },
    { alias_ := .shortAndLong "F" "filter", usage := "filter <condition(s)>",
      description := "Filter the data frame, keeping rows were the condition(s) match",
      parseFn := fun query =>
        if query = "" then .ok (.InlineQueryShow .Filter) else .ok (.TableFilter query) },
    { alias_ := .shortAndLong "O" "order", usage := "order <column(s)_and_order(s)>",
      description := "Sort the data frame by column(s)",
      parseFn := fun query =>
        if query = "" then .ok (.InlineQueryShow .Order) else .ok (.TableOrder query) },
    { alias_ := .long "schema", usage := "schema",
      description := "Show loaded data frame(s) and their schema(s)",
      parseFn := fun _ => .ok .SwitchToSchema },
    { alias_ := .long "rand", usage := "rand",
      description := "Select a random row from current data frame",
      parseFn := fun _ => .ok .TableGotoRandom },
    { alias_ := .long "tabn", usage := "tabn <query>",
      description := "Create a new tab using the query",
      parseFn := fun query => .ok (.TabNewQuery query) },
    { alias_ := .long "tabr", usage := "tabr <tab_index>",
      description := "Remove the tab at the index",
      parseFn := fun query => do
        let n ← parse_usize query
        .ok (.TabRemove n) },
    { alias_ := .long "tab", usage := "tab <tab_index>",
      description := "Select the tab at the index",
      parseFn := fun query => do
        let n ← parse_usize query
        .ok (.TabSelect n) },
    { alias_ := .long "infer", usage := "infer <types>",
      description := "Perform extra processing to infer column types",
      parseFn := inferParseFn },
    { alias_ := .long "register", usage := "register <data_frame_name>",
      description := "register current data frame to the SQL backend with the given name",
      parseFn := fun name => .ok (.RegisterDataFrame name) },
    { alias_ := .long "scatter", usage := "scatter <x-axis> <y-axis> <group-by>",
      description := "Draw a scatter plot given the axes",
      parseFn := scatterParseFn },
    { alias_ := .long "hist", usage := "hist <axes> [buckets]",
      description := "Draw a histogram plot given the axes",
      parseFn := histParseFn },
    { alias_ := .long "theme", usage := "theme",
      description := "Show theme selector",
      parseFn := fun _ => .ok .ThemeSelectorShow },
    { alias_ := .long "export", usage := "export <format> <path>",
      description := "Export the data frame to a format specified file",
      parseFn := exportParseFn },
    { alias_ := .long "import", usage := "import <format> <path>",
      description := "Import data frame from a file into the sql engine",
      parseFn := importParseFn } ]

/-- The registry built by registary(): each entry contributes its long form
and, when present, its short form, all mapping to the entry's parser.  The
source collects the pairs into a HashMap; since the keys are pairwise
distinct, first-match association lookup is equivalent. -/
def registary : List (String × (String → Except String AppAction)) :=
  ENTRIES.flatMap fun cmd =>
    match cmd.alias_ with
    | .long l => [(l, cmd.parseFn)]
    | .shortAndLong s l => [(s, cmd.parseFn), (l, cmd.parseFn)]

/-- parse_into_action: split the line at the first space into head and rest,
look the head up in the registry, and run the entry's parser on the rest. -/
def parse_into_action (cmd : String) : Except String AppAction :=
  let p := (splitOnceSpace cmd.data).getD (cmd.data, [])
  match registary.find? fun e => e.1 == String.mk p.1 with
  | some e => e.2 (String.mk p.2)
  | none => .error ("Invalid command " ++ cmd)

/-! ## Name generation and the catalog (src/misc/type_ext.rs, spec section 4.1) -/

/-- SnakeCaseNameGen (src/misc/type_ext.rs): an iterator with a base and a
stage counter starting at 0. -/
structure SnakeCaseNameGen where
  base : String
  stage : Nat
deriving DecidableEq

/-- SnakeCaseNameGen::with. -/
def SnakeCaseNameGen.withBase (base : String) : SnakeCaseNameGen :=
  { base := base, stage := 0 }

/-- SnakeCaseNameGen::next: increments the stage; stage 1 yields the base,
stage n for n at least 2 yields base_n (decimal rendering of n). -/
def SnakeCaseNameGen.next (g : SnakeCaseNameGen) : String × SnakeCaseNameGen :=
  let stage := g.stage + 1
  (if stage = 1 then g.base else g.base ++ "_" ++ Nat.repr stage, { g with stage := stage })

/-- The generator state after n calls to next. -/
def genIter (g : SnakeCaseNameGen) : Nat → SnakeCaseNameGen
  | 0 => g
  | n + 1 => (genIter g n).next.2

/-- The n-th name (1-indexed) produced by iterating the generator from a fresh
state. -/
def genNth (base : String) (n : Nat) : String :=
  (genIter (SnakeCaseNameGen.withBase base) (n - 1)).next.1

/-- The candidate sequence as the spec words it: base, base_2, base_3, dots;
the n-th element (1-indexed) for comparison against the generator. -/
def candSpec (base : String) (n : Nat) : String :=
  if n ≤ 1 then base else base ++ "_" ++ Nat.repr n

/-- Modelled from the spec: the search loop of catalog register (src/misc/sql.rs
is not under src/): draw candidates from the generator and return the first
that is not already a catalog name.  The source iterates without bound; the
model uses fuel, and fuel names.length + 1 is proved sufficient below. -/
def registerSearch (names : List String) : SnakeCaseNameGen → Nat → Option String
  | _, 0 => none
  | g, fuel + 1 =>
    let p := g.next
    if p.1 ∈ names then registerSearch names p.2 fuel else some p.1

/-- Modelled from the spec: register's assigned name for a desired base, given
the current list of catalog names. -/
def registerName (names : List String) (base : String) : Option String :=
  registerSearch names (SnakeCaseNameGen.withBase base) (names.length + 1)

/-- Decimal digit characters of n, most significant first: the closed-form
unfolding of Nat.toDigits 10, used to reason about the decimal rendering
inside the generated names. -/
def digitsRec (n : Nat) : List Char :=
  if _h : n < 10 then [Nat.digitChar n]
  else digitsRec (n / 10) ++ [Nat.digitChar (n % 10)]
decreasing_by exact Nat.div_lt_self (by omega) (by omega)

/-- One step of decimal digit evaluation. -/
def valStep (a : Nat) (c : Char) : Nat := 10 * a + (c.toNat - 48)

/-- Value of a decimal digit string. -/
def digitsVal (l : List Char) : Nat := l.foldl valStep 0

/-! ## State tree (spec section 3; src/tui/pane.rs) -/

/-- Modelled from the spec: the search bar modal state (search_bar.rs is not
under src/): the matcher's most recent result and the pre-search frame kept
for rollback. -/
structure SearchBarState where
  latest : Option DataFrame
  rollback_df : DataFrame
deriving DecidableEq

/-- Modal (src/tui/pane.rs): the mutually exclusive per-tab overlay.  Payload
types that live outside src/ are reduced to the data the claims use. -/
inductive Modal where
  | Sheet (scroll : Nat)
  | SearchBar (sb : SearchBarState)
  | DataFrameInfo (scroll : Nat)
  | ScatterPlotM
  | HistogramPlotM
  | InlineQuery (t : InlineQueryType)
  | Help
  | None
deriving DecidableEq

/-- TableType (src/tui/pane.rs). -/
inductive TableType where
  | Help
  | Name (name : String)
  | Query (query : String)
deriving DecidableEq

/-- Modelled from the spec: the table view state (data_frame_table.rs is not
under src/): the displayed frame, the selected row kept in [0, height), and
the rendered rows hint. -/
structure DataFrameTableState where
  data_frame : DataFrame
  selected : Nat
  rendered_rows : Nat
deriving DecidableEq

/-- Modelled from the spec: selecting a row clamps into [0, height). -/
def DataFrameTableState.select (t : DataFrameTableState) (idx : Nat) : DataFrameTableState :=
  { t with selected := min idx (t.data_frame.height - 1) }

/-- Modelled from the spec: replacing the frame clamps the selected row. -/
def DataFrameTableState.set_data_frame (t : DataFrameTableState) (df : DataFrame) :
    DataFrameTableState :=
  { t with data_frame := df, selected := min t.selected (df.height - 1) }

/-- PaneState (src/tui/pane.rs); action.rs refers to it as TabContentState. -/
structure PaneState where
  table : DataFrameTableState
  modal : Modal
  table_type : TableType
deriving DecidableEq

/-- PaneState::new: a fresh table view on the frame, no modal. -/
def PaneState.new (df : DataFrame) (tt : TableType) : PaneState :=
  { table := { data_frame := df, selected := 0, rendered_rows := 0 },
    modal := .None, table_type := tt }

/-- PaneState::modal_take: std::mem::replace of the modal with None, returning
the previous modal. -/
def PaneState.modal_take (p : PaneState) : Modal × PaneState :=
  (p.modal, { p with modal := .None })

/-- Content of the root state: tab view or schema view. -/
inductive Content where
  | Tabular
  | Schema
deriving DecidableEq

/-- Modelled from the spec: the root application state (app.rs is not under
src/).  The catalog is the ordered list of registered names of the global sql
engine; components no claim touches (palette, theme selector, history, error
banner) are omitted. -/
structure App where
  tabs : List PaneState
  selected_tab : Nat
  content : Content
  catalog : List String
  running : Bool
deriving DecidableEq

/-- The selected tab, when the index is in range. -/
def App.selectedTab (app : App) : Option PaneState :=
  app.tabs.get? app.selected_tab

/-- Writing back the selected tab. -/
def App.setSelectedTab (app : App) (p : PaneState) : App :=
  { app with tabs := app.tabs.set app.selected_tab p }

/-- Modelled from the spec: catalog register on the App: assign the first free
generated name and append it to the ordered names.  The none fallback is dead
code: registerName is proved total below. -/
def App.register (app : App) (base : String) : String × App :=
  match registerName app.catalog base with
  | some n => (n, { app with catalog := app.catalog ++ [n] })
  | none => (base, app)

/-! ## Reducer (src/handler/action.rs) -/

/-- Environment of one reducer step: the random draw behind
rand::rng().random_range (on a nonempty range 0..h the drawn row is
draw mod h) and the reader result the import actions consume. -/
structure Ext where
  draw : Nat
  frames : Except String (List (String × DataFrame))

/-- Result of one reducer step: ok with the new state and at most one
follow-up action, a recoverable error (anyhow), a Rust panic, or an arm the
model leaves out. -/
inductive ExecResult where
  | ok (app : App) (follow : Option AppAction)
  | err (app : App) (msg : String)
  | panicked (msg : String)
  | unmodeled
deriving DecidableEq

/-- The for-loop body shared by every import arm: for each (name, frame) pair
register the name (the catalog disambiguates) and append a Name tab holding
the frame. -/
def importFrames (app : App) : List (String × DataFrame) → App
  | [] => app
  | (name, df) :: rest =>
    let p := app.register name
    importFrames { p.2 with tabs := p.2.tabs ++ [PaneState.new df (.Name p.1)] } rest

/-- The import arms of execute that end with
Ok(Some(TabSelect(tabs.len().saturating_sub(1)))). -/
def importAndSelect (ext : Ext) (app : App) : ExecResult :=
  match ext.frames with
  | .error e => .err app e
  | .ok frames =>
    let app2 := importFrames app frames
    .ok app2 (some (.TabSelect (app2.tabs.length - 1)))

/-- execute (src/handler/action.rs): the reducer arms the claims exercise,
translated one to one; the remaining arms are mapped to unmodeled.  The
TableGotoRandom arm reproduces rand's contract: random_range(0..h) panics when
the range is empty and otherwise yields a value in [0, h). -/
def execute (ext : Ext) (action : AppAction) (app : App) : ExecResult :=
  match action with
  | .NoAction => .ok app none
  | .TableGotoRandom =>
    match app.selectedTab with
    | some tab =>
      let h := tab.table.data_frame.height
      if h = 0 then .panicked ("cannot sample empty range")
      else .ok (app.setSelectedTab { tab with table := tab.table.select (ext.draw % h) }) none
    | none => .ok app none
  | .TableSelect s => .ok app (some (.TableQuery ("SELECT " ++ s ++ " FROM _")))
  | .TableOrder s => .ok app (some (.TableQuery ("SELECT * FROM _ ORDER BY " ++ s)))
  | .TableFilter s => .ok app (some (.TableQuery ("SELECT * FROM _ where " ++ s)))
  | .TabSelect idx =>
    let idx2 := min idx (app.tabs.length - 1)
    .ok { app with selected_tab := idx2, content := .Tabular } none
  | .TabRename _ _ => .panicked ("not yet implemented")
  | .SearchCommit =>
    match app.selectedTab with
    | some tab =>
      let p := tab.modal_take
      match p.1 with
      | .SearchBar sb =>
        match sb.latest with
        | some df =>
          .ok (app.setSelectedTab { p.2 with table := p.2.table.set_data_frame df }) none
        | none => .ok (app.setSelectedTab p.2) none
      | _ => .ok (app.setSelectedTab p.2) none
    | none => .ok app none
  | .ImportDsv _ _ _ _ =>
    match ext.frames with
    | .error e => .err app e
    | .ok frames => .ok (importFrames app frames) none
  | .ImportParquet _ => importAndSelect ext app
  | .ImportJson _ _ => importAndSelect ext app
  | .ImportArrow _ => importAndSelect ext app
  | .ImportSqlite _ => importAndSelect ext app
  | .ImportFwf _ _ _ _ _ => importAndSelect ext app
  | .Quit => .ok { app with running := false } none
  | _ => .unmodeled

/-! ## Concrete states for the closed evaluations -/

/-- A three-row sample frame. -/
def sampleFrame : DataFrame := { height := 3, tag := 0 }

/-- An empty (zero-height) sample frame. -/
def emptyFrame : DataFrame := { height := 0, tag := 1 }

/-- A one-tab application state on the sample frame, table registered as t. -/
def sampleApp : App :=
  { tabs := [PaneState.new sampleFrame (.Name "t")], selected_tab := 0,
    content := .Tabular, catalog := ["t"], running := true }

/-- A one-tab application state whose frame has height zero. -/
def emptyFrameApp : App :=
  { tabs := [PaneState.new emptyFrame (.Name "t")], selected_tab := 0,
    content := .Tabular, catalog := ["t"], running := true }

/-- A search bar state with no result yet. -/
def searchSb : SearchBarState := { latest := none, rollback_df := sampleFrame }

/-- A tab with an open search bar that has produced no result yet. -/
def searchTab : PaneState :=
  { table := { data_frame := sampleFrame, selected := 0, rendered_rows := 0 },
    modal := .SearchBar searchSb, table_type := .Name "t" }

/-- A one-tab state whose selected tab has an open search bar with no result
yet. -/
def searchApp : App :=
  { tabs := [searchTab], selected_tab := 0, content := .Tabular,
    catalog := ["t"], running := true }

/-- An environment with a trivial draw and an empty successful reader result. -/
def sampleExt : Ext := { draw := 0, frames := .ok [] }

/-- An environment whose reader yields one frame suggested as u. -/
def dsvExt : Ext := { draw := 0, frames := .ok [("u", sampleFrame)] }

/-! ## General lemmas -/

/-- Rebuilding a string from its character data is the identity. -/
theorem string_mk_data (s : String) : String.mk s.data = s := rfl

/-- split_once finds the first space: a space-free head is split off intact. -/
theorem splitOnceSpace_append (h r : List Char) (hh : ' ' ∉ h) :
    splitOnceSpace (h ++ ' ' :: r) = some (h, r) := by
  induction h with
  | nil => simp [splitOnceSpace]
  | cons c cs ih =>
    have hc : c ≠ ' ' := fun e => hh (e ▸ List.mem_cons_self c cs)
    have hcs : ' ' ∉ cs := fun e => hh (List.mem_cons_of_mem c e)
    simp [splitOnceSpace, hc, ih hcs]

/-- split_once fails on a space-free line. -/
theorem splitOnceSpace_eq_none (l : List Char) (hl : ' ' ∉ l) :
    splitOnceSpace l = none := by
  induction l with
  | nil => rfl
  | cons c cs ih =>
    have hc : c ≠ ' ' := fun e => hl (e ▸ List.mem_cons_self c cs)
    have hcs : ' ' ∉ cs := fun e => hl (List.mem_cons_of_mem c e)
    simp [splitOnceSpace, hc, ih hcs]

/-! ## C6: TableSelect, TableOrder, TableFilter rewrite to TableQuery -/

/-- C6: for every string s, TableFilter(s) rewrites to the follow-up
TableQuery("SELECT * FROM _ where " ++ s), TableSelect(s) to
TableQuery("SELECT " ++ s ++ " FROM _"), and TableOrder(s) to
TableQuery("SELECT * FROM _ ORDER BY " ++ s), each leaving the state
untouched. -/
theorem table_sql_rewrite_actions (ext : Ext) (s : String) (app : App) :
    execute ext (.TableFilter s) app
      = .ok app (some (.TableQuery ("SELECT * FROM _ where " ++ s))) ∧
    execute ext (.TableSelect s) app
      = .ok app (some (.TableQuery ("SELECT " ++ s ++ " FROM _"))) ∧
    execute ext (.TableOrder s) app
      = .ok app (some (.TableQuery ("SELECT * FROM _ ORDER BY " ++ s))) :=
  ⟨rfl, rfl, rfl⟩

/-! ## C4: TabRename -/

/-- C4 counterexample: at index 0 and name x the TabRename arm panics (the
todo macro), so it does not return a recoverable Unsupported error. -/
theorem tab_rename_unsupported_counterexample :
    execute sampleExt (.TabRename 0 "x") sampleApp = .panicked ("not yet implemented") ∧
    execute sampleExt (.TabRename 0 "x") sampleApp ≠ .err sampleApp ("Unsupported") := by
  exact ⟨rfl, by decide⟩

/-- C4 (amended): executing TabRename panics via the todo macro for every
index, name, state and environment; it neither returns a normal error nor
changes any state. -/
theorem tab_rename_panics (ext : Ext) (i : Nat) (name : String) (app : App) :
    execute ext (.TabRename i name) app = .panicked ("not yet implemented") := rfl

/-! ## C5: TabSelect clamps -/

/-- C5: on a non-empty tabs list, TabSelect(i) never panics: it returns ok,
setting selected_tab to min i (len - 1), which is always in range; for
i at least len this selects the last tab. -/
theorem tab_select_clamps (ext : Ext) (i : Nat) (app : App) (h : app.tabs ≠ []) :
    execute ext (.TabSelect i) app
      = .ok { app with selected_tab := min i (app.tabs.length - 1), content := .Tabular } none ∧
    min i (app.tabs.length - 1) < app.tabs.length ∧
    (app.tabs.length ≤ i → min i (app.tabs.length - 1) = app.tabs.length - 1) := by
  have hpos : 0 < app.tabs.length := List.length_pos.mpr h
  exact ⟨rfl, by omega, fun hi => by omega⟩

/-- C5 witness: selecting tab 5 of the one-tab sample state clamps to 0. -/
theorem tab_select_clamps_witness :
    execute sampleExt (.TabSelect 5) sampleApp
      = .ok { sampleApp with
              selected_tab := min 5 (sampleApp.tabs.length - 1),
              content := .Tabular } none ∧
    min 5 (sampleApp.tabs.length - 1) < sampleApp.tabs.length ∧
    (sampleApp.tabs.length ≤ 5 → min 5 (sampleApp.tabs.length - 1) = sampleApp.tabs.length - 1) :=
  tab_select_clamps sampleExt 5 sampleApp (by decide)

/-! ## C8: short and long command forms agree -/

/-- C8: for each registry entry carrying both a short and a long form, the two
forms parse any argument string to the same action, and the Q example parses
to the expected TableQuery. -/
theorem short_long_alias_equivalence (rest : String) :
    parse_into_action ("Q " ++ rest) = parse_into_action ("query " ++ rest) ∧
    parse_into_action ("q " ++ rest) = parse_into_action ("quit " ++ rest) ∧
    parse_into_action ("S " ++ rest) = parse_into_action ("select " ++ rest) ∧
    parse_into_action ("F " ++ rest) = parse_into_action ("filter " ++ rest) ∧
    parse_into_action ("O " ++ rest) = parse_into_action ("order " ++ rest) ∧
    parse_into_action ("Q SELECT * FROM t") = .ok (.TableQuery ("SELECT * FROM t")) :=
  ⟨rfl, rfl, rfl, rfl, rfl, rfl⟩

/-! ## C1: fwf import options -/

/-- A token that parses as a number is none of the fwf keyword options, so
FwfImportArgs::update treats it as an integer argument. -/
theorem FwfImportArgs.update_num (a : FwfImportArgs) (s : String) (n : Nat)
    (h : str_parse_nat s = some n) :
    FwfImportArgs.update a s =
      (match a.separator_length with
       | none => .ok { a with separator_length := some n }
       | some _ => .ok { a with widths := a.widths ++ [n] }) := by
  have h1 : s ≠ "flexible-width" := by
    rintro rfl; exact Option.noConfusion (show (none : Option Nat) = some n from h)
  have h2 : s ≠ "fw" := by
    rintro rfl; exact Option.noConfusion (show (none : Option Nat) = some n from h)
  have h3 : s ≠ "no-header" := by
    rintro rfl; exact Option.noConfusion (show (none : Option Nat) = some n from h)
  have h4 : s ≠ "nh" := by
    rintro rfl; exact Option.noConfusion (show (none : Option Nat) = some n from h)
  unfold FwfImportArgs.update
  rw [if_neg (by simp [h1, h2]), if_neg (by simp [h3, h4]), h]

/-- The nh token turns the header off when it has not yet been set. -/
theorem fwf_update_nh (a : FwfImportArgs) :
    FwfImportArgs.update a "nh" =
      (match a.has_header with
       | none => .ok { a with has_header := some false }
       | some _ => .error ("no-header is allowed only once")) := rfl

/-- Folding integer tokens once the separator length is set: every integer
extends the widths, in order. -/
theorem fwf_fold_nums_some (ss : List String) (ns : List Nat)
    (h : List.Forall₂ (fun s n => str_parse_nat s = some n) ss ns) :
    ∀ (a : FwfImportArgs) (m : Nat), a.separator_length = some m →
      ss.foldlM FwfImportArgs.update a = .ok { a with widths := a.widths ++ ns } := by
  induction h with
  | nil =>
    intro a m hsl
    rw [List.append_nil]
    rfl
  | @cons s n ss' ns' hsn htl ih =>
    intro a m hsl
    obtain ⟨ws, sl, fw2, hh2⟩ := a
    have hsl2 : sl = some m := hsl
    subst hsl2
    rw [List.foldlM_cons, FwfImportArgs.update_num _ s n hsn]
    show ss'.foldlM FwfImportArgs.update
        { widths := ws ++ [n], separator_length := some m,
          flexible_width := fw2, has_header := hh2 }
      = .ok { widths := ws ++ n :: ns', separator_length := some m,
              flexible_width := fw2, has_header := hh2 }
    rw [ih _ m rfl]
    simp

/-- Folding a run of integer tokens from a state with no separator length:
the first integer becomes the separator length and the rest extend the widths
in order. -/
theorem fwf_fold_nums_none (ss : List String) (ns : List Nat)
    (h : List.Forall₂ (fun s n => str_parse_nat s = some n) ss ns) :
    ∀ a : FwfImportArgs, a.separator_length = none →
      ss.foldlM FwfImportArgs.update a = .ok
        (match ns with
         | [] => a
         | k :: ks => { a with separator_length := some k, widths := a.widths ++ ks }) := by
  cases h with
  | nil => intro a hsl; rfl
  | @cons s n ss' ns' hsn htl =>
    intro a hsl
    obtain ⟨ws, sl, fw2, hh2⟩ := a
    have hsl2 : sl = none := hsl
    subst hsl2
    rw [List.foldlM_cons, FwfImportArgs.update_num _ s n hsn]
    show ss'.foldlM FwfImportArgs.update
        { widths := ws, separator_length := some n,
          flexible_width := fw2, has_header := hh2 }
      = .ok { widths := ws ++ ns', separator_length := some n,
              flexible_width := fw2, has_header := hh2 }
    exact fwf_fold_nums_some ss' ns' htl _ n rfl

/-- C1 (amended): with no space between fwf and the bracket, the command
line import fwf[1 4 5 nh] /p parses to ImportFwf with path /p, separator
length 1, widths [4, 5] and no header; and over any bracketed fwf option fold the first
integer token becomes the separator length, each later integer a width in
order, and a trailing nh turns the header off.  (With a space before the
bracket the earlier fwf-without-options pattern matches first; see the
counterexample.) -/
theorem fwf_bracket_option_parsing (ss : List String) (ns : List Nat)
    (h : List.Forall₂ (fun s n => str_parse_nat s = some n) ss ns) :
    parse_into_action ("import fwf[1 4 5 nh] /p")
      = .ok (.ImportFwf "/p" [4, 5] 1 false false) ∧
    fwf_args_fold ss = .ok
      { widths := ns.tail, separator_length := ns.head?,
        flexible_width := none, has_header := none } ∧
    fwf_args_fold (ss ++ ["nh"]) = .ok
      { widths := ns.tail, separator_length := ns.head?,
        flexible_width := none, has_header := some false } := by
  have hnums := fwf_fold_nums_none ss ns h {} rfl
  refine ⟨rfl, ?_, ?_⟩
  · rw [fwf_args_fold, hnums]
    cases ns <;> rfl
  · rw [fwf_args_fold, List.foldlM_append, hnums]
    cases ns <;> rfl

/-- C1 witness: the general fold statement instantiated at the tokens of the
example. -/
theorem fwf_bracket_option_parsing_witness :
    parse_into_action ("import fwf[1 4 5 nh] /p")
      = .ok (.ImportFwf "/p" [4, 5] 1 false false) ∧
    fwf_args_fold ["1", "4", "5"] = .ok
      { widths := [4, 5], separator_length := some 1,
        flexible_width := none, has_header := none } ∧
    fwf_args_fold (["1", "4", "5"] ++ ["nh"]) = .ok
      { widths := [4, 5], separator_length := some 1,
        flexible_width := none, has_header := some false } :=
  fwf_bracket_option_parsing ["1", "4", "5"] [1, 4, 5]
    (.cons rfl (.cons rfl (.cons rfl .nil)))

/-- C1 counterexample: with the space present, exactly as the claim writes the
command, the earlier fwf-without-options regex matches first, the whole
bracketed text becomes the path, and the options stay at their defaults; the
claimed parse does not hold. -/
theorem fwf_spaced_bracket_counterexample :
    parse_into_action ("import fwf [1 4 5 nh] /p")
      = .ok (.ImportFwf "[1 4 5 nh] /p" [] 0 false true) ∧
    parse_into_action ("import fwf [1 4 5 nh] /p")
      ≠ .ok (.ImportFwf "/p" [4, 5] 1 false false) := by
  refine ⟨rfl, ?_⟩
  intro hcontra
  rw [show parse_into_action ("import fwf [1 4 5 nh] /p")
      = .ok (.ImportFwf "[1 4 5 nh] /p" [] 0 false true) from rfl] at hcontra
  simp at hcontra

/-! ## C9: export sub-grammar -/

/-- The export command hands the rest of the line to the export entry. -/
theorem parse_export_reduces (rest : String) :
    parse_into_action ("export " ++ rest) = exportParseFn rest := rfl

/-- The export parser splits a space-free format from the path at the first
space and dispatches on the format. -/
theorem exportParseFn_split (fmt path : String) (hfmt : ' ' ∉ fmt.data) :
    exportParseFn (fmt ++ (" " ++ path)) =
      (if fmt = "csv" then .ok (.ExportDsv path ',' '"' true)
       else if fmt = "tsv" then .ok (.ExportDsv path '\t' '"' true)
       else if fmt = "parquet" then .ok (.ExportParquet path)
       else if fmt = "json" then .ok (.ExportJson path .Json)
       else if fmt = "jsonl" then .ok (.ExportJson path .JsonLine)
       else if fmt = "arrow" then .ok (.ExportArrow path)
       else .error ("Unsupported format. Supported ones: csv, tsv, parquet, json, jsonl, and arrow")) := by
  have hd : (fmt ++ (" " ++ path)).data = fmt.data ++ (' ' :: path.data) := rfl
  unfold exportParseFn
  rw [hd, splitOnceSpace_append _ _ hfmt]

/-- C9: exporting yields an error exactly when the format is outside the six
supported ones (for any path); csv exports as DSV with comma separator,
double-quote and header, tsv likewise with a tab separator; and a command
without a space after the format fails the format-path split. -/
theorem export_format_characterization (fmt path rest : String)
    (hfmt : ' ' ∉ fmt.data) (hrest : ' ' ∉ rest.data) :
    ((∃ e, parse_into_action ("export " ++ (fmt ++ (" " ++ path))) = .error e) ↔
      fmt ∉ (["csv", "tsv", "parquet", "json", "jsonl", "arrow"] : List String)) ∧
    (fmt = "csv" →
      parse_into_action ("export " ++ (fmt ++ (" " ++ path)))
        = .ok (.ExportDsv path ',' '"' true)) ∧
    (fmt = "tsv" →
      parse_into_action ("export " ++ (fmt ++ (" " ++ path)))
        = .ok (.ExportDsv path '\t' '"' true)) ∧
    parse_into_action ("export " ++ rest) = .error ("Export should provide format and path") := by
  have hred := (parse_export_reduces (fmt ++ (" " ++ path))).trans
    (exportParseFn_split fmt path hfmt)
  refine ⟨?_, ?_, ?_, ?_⟩
  · rw [hred]
    by_cases h1 : fmt = "csv"
    · simp [h1]
    by_cases h2 : fmt = "tsv"
    · simp [h2]
    by_cases h3 : fmt = "parquet"
    · simp [h3]
    by_cases h4 : fmt = "json"
    · simp [h4]
    by_cases h5 : fmt = "jsonl"
    · simp [h5]
    by_cases h6 : fmt = "arrow"
    · simp [h6]
    simp [h1, h2, h3, h4, h5, h6]
  · intro h1; rw [hred]; simp [h1]
  · intro h2; rw [hred]; simp [h2]
  · rw [parse_export_reduces]
    unfold exportParseFn
    rw [splitOnceSpace_eq_none _ hrest]

/-- C9 witness: instantiated at format csv, path /p and the splitless rest x. -/
theorem export_format_characterization_witness :
    ((∃ e, parse_into_action ("export " ++ (("csv" : String) ++ (" " ++ "/p"))) = .error e) ↔
      ("csv" : String) ∉ (["csv", "tsv", "parquet", "json", "jsonl", "arrow"] : List String)) ∧
    (("csv" : String) = "csv" →
      parse_into_action ("export " ++ (("csv" : String) ++ (" " ++ "/p")))
        = .ok (.ExportDsv "/p" ',' '"' true)) ∧
    (("csv" : String) = "tsv" →
      parse_into_action ("export " ++ (("csv" : String) ++ (" " ++ "/p")))
        = .ok (.ExportDsv "/p" '\t' '"' true)) ∧
    parse_into_action ("export " ++ "x") = .error ("Export should provide format and path") :=
  export_format_characterization "csv" "/p" "x" (by decide) (by decide)

/-! ## C10: SearchCommit -/

/-- C10: on a tab with an open search bar, SearchCommit always takes the modal
off the tab; when the matcher has produced no result the displayed frame is
kept unchanged, and when a latest result exists the frame is replaced by it. -/
theorem search_commit_no_result_keeps_frame (ext : Ext) (app : App) (tab : PaneState)
    (sb : SearchBarState) (hget : app.tabs.get? app.selected_tab = some tab)
    (hmodal : tab.modal = .SearchBar sb) :
    (sb.latest = none →
      execute ext .SearchCommit app
        = .ok (app.setSelectedTab { tab with modal := .None }) none) ∧
    (∀ df, sb.latest = some df →
      execute ext .SearchCommit app
        = .ok (app.setSelectedTab
            { tab with modal := .None, table := tab.table.set_data_frame df }) none) := by
  have hsel : app.selectedTab = some tab := hget
  constructor
  · intro hl
    simp only [execute, hsel, PaneState.modal_take, hmodal, hl]
  · intro df hl
    simp only [execute, hsel, PaneState.modal_take, hmodal, hl]

/-- C10 witness: the sample state with an open, resultless search bar. -/
theorem search_commit_no_result_keeps_frame_witness :
    (searchSb.latest = none →
      execute sampleExt .SearchCommit searchApp
        = .ok (searchApp.setSelectedTab { searchTab with modal := .None }) none) ∧
    (∀ df, searchSb.latest = some df →
      execute sampleExt .SearchCommit searchApp
        = .ok (searchApp.setSelectedTab
            { searchTab with
              modal := .None,
              table := searchTab.table.set_data_frame df }) none) :=
  search_commit_no_result_keeps_frame sampleExt searchApp searchTab searchSb rfl rfl

/-! ## C3: TableGotoRandom on an empty frame -/

/-- C3: on a tab whose frame has height 0 the TableGotoRandom arm reaches
rand's random_range with the empty range 0..0 and panics, instead of the
specified no-op. -/
theorem goto_random_empty_frame_panics :
    execute sampleExt .TableGotoRandom emptyFrameApp = .panicked ("cannot sample empty range") := rfl

/-! ## C7: name generation and catalog register

The adequacy of the fuel in registerName needs the decimal renderings of
distinct stages to be distinct strings, which in turn needs injectivity of
Nat.repr; proved here through the digit recursion. -/

/-- digitChar maps a single digit to the character 48 positions up the code
table. -/
theorem digitChar_toNat (n : Nat) (h : n < 10) : (Nat.digitChar n).toNat = 48 + n := by
  interval_cases n <;> rfl

/-- Nat.toDigitsCore with enough fuel computes the digit recursion. -/
theorem toDigitsCore_eq_digitsRec (f : Nat) :
    ∀ (n : Nat) (acc : List Char), n < f →
      Nat.toDigitsCore 10 f n acc = digitsRec n ++ acc := by
  induction f with
  | zero => intro n acc h; omega
  | succ f ih =>
    intro n acc h
    simp only [Nat.toDigitsCore]
    by_cases h0 : n / 10 = 0
    · rw [if_pos h0]
      have hn : n < 10 := by
        by_contra hnn
        push_neg at hnn
        have h1 : 1 ≤ n / 10 := (Nat.one_le_div_iff (by omega)).mpr hnn
        omega
      unfold digitsRec
      rw [dif_pos hn, Nat.mod_eq_of_lt hn]
      rfl
    · rw [if_neg h0]
      have h10 : 10 ≤ n := by
        by_contra hnn
        push_neg at hnn
        rw [Nat.div_eq_of_lt hnn] at h0
        exact h0 rfl
      have hdiv : n / 10 < n := Nat.div_lt_self (by omega) (by omega)
      rw [ih (n / 10) (Nat.digitChar (n % 10) :: acc) (by omega)]
      have hrec : digitsRec n = digitsRec (n / 10) ++ [Nat.digitChar (n % 10)] := by
        conv_lhs => rw [digitsRec]
        rw [dif_neg (show ¬n < 10 by omega)]
      rw [hrec, List.append_assoc]
      rfl

/-- The character data of Nat.repr is the digit recursion. -/
theorem repr_data_eq (n : Nat) : (Nat.repr n).data = digitsRec n := by
  have h1 : Nat.repr n = (Nat.toDigits 10 n).asString := rfl
  have h2 : Nat.toDigits 10 n = Nat.toDigitsCore 10 (n + 1) n [] := rfl
  rw [h1, h2, toDigitsCore_eq_digitsRec (n + 1) n [] (Nat.lt_succ_self n), List.append_nil]
  rfl

/-- Decimal evaluation over the digit recursion recovers the number. -/
theorem foldl_valStep_digitsRec (n : Nat) :
    ∀ a : Nat, (digitsRec n).foldl valStep a = a * 10 ^ (digitsRec n).length + n := by
  induction n using Nat.strong_induction_on with
  | _ n ih =>
    intro a
    by_cases h : n < 10
    · unfold digitsRec
      rw [dif_pos h]
      simp only [List.foldl, List.length_singleton, valStep, digitChar_toNat n h, pow_one]
      omega
    · unfold digitsRec
      rw [dif_neg h]
      have h10 : 10 ≤ n := by omega
      have hdiv : n / 10 < n := Nat.div_lt_self (by omega) (by omega)
      rw [List.foldl_append, ih (n / 10) hdiv a]
      simp only [List.foldl, valStep, List.length_append, List.length_singleton]
      rw [digitChar_toNat (n % 10) (Nat.mod_lt n (by omega)), Nat.add_sub_cancel_left]
      calc 10 * (a * 10 ^ (digitsRec (n / 10)).length + n / 10) + n % 10
          = a * (10 ^ (digitsRec (n / 10)).length * 10) + (10 * (n / 10) + n % 10) := by ring
        _ = a * 10 ^ ((digitsRec (n / 10)).length + 1) + n := by
            rw [Nat.div_add_mod, pow_succ]

/-- The digit recursion is injective. -/
theorem digitsRec_injective {m n : Nat} (h : digitsRec m = digitsRec n) : m = n := by
  have hm := foldl_valStep_digitsRec m 0
  have hn := foldl_valStep_digitsRec n 0
  rw [h] at hm
  rw [hn] at hm
  omega

/-- Nat.repr is injective: distinct stages render distinctly. -/
theorem nat_repr_injective {m n : Nat} (h : Nat.repr m = Nat.repr n) : m = n := by
  apply digitsRec_injective
  rw [← repr_data_eq, ← repr_data_eq, h]

/-- The spec candidate sequence is injective on positive indices. -/
theorem candSpec_injective (base : String) {m n : Nat} (hm : 1 ≤ m) (hn : 1 ≤ n)
    (h : candSpec base m = candSpec base n) : m = n := by
  unfold candSpec at h
  have h1d : ("_" : String).data.length = 1 := rfl
  by_cases h1 : m ≤ 1 <;> by_cases h2 : n ≤ 1
  · omega
  · rw [if_pos h1, if_neg h2] at h
    have hd := congrArg String.data h
    simp only [String.data_append] at hd
    have hlen := congrArg List.length hd
    simp only [List.length_append, List.length_singleton] at hlen
    omega
  · rw [if_neg h1, if_pos h2] at h
    have hd := congrArg String.data h
    simp only [String.data_append] at hd
    have hlen := congrArg List.length hd
    simp only [List.length_append, List.length_singleton] at hlen
    omega
  · rw [if_neg h1, if_neg h2] at h
    have hd := congrArg String.data h
    simp only [String.data_append, List.append_assoc, List.append_cancel_left_eq] at hd
    exact nat_repr_injective (congrArg String.mk hd)

/-- Among the first names.length + 1 candidates one is unused. -/
theorem exists_free_candidate (names : List String) (base : String) :
    ∃ j, 1 ≤ j ∧ j ≤ names.length + 1 ∧ candSpec base j ∉ names := by
  by_contra hc
  push_neg at hc
  have hsub : ((List.range (names.length + 1)).map fun i => candSpec base (i + 1)) ⊆ names := by
    intro x hx
    simp only [List.mem_map, List.mem_range] at hx
    obtain ⟨i, hi, rfl⟩ := hx
    exact hc (i + 1) (by omega) (by omega)
  have hinj : Function.Injective fun i => candSpec base (i + 1) := by
    intro i j hij
    have := candSpec_injective base (m := i + 1) (n := j + 1) (by omega) (by omega) hij
    omega
  have hnd : ((List.range (names.length + 1)).map fun i => candSpec base (i + 1)).Nodup :=
    (List.nodup_range _).map hinj
  have hle := (List.subperm_of_subset hnd hsub).length_le
  simp only [List.length_map, List.length_range] at hle
  omega

/-- registerSearch returns the first free candidate when one exists within the
fuel, scanning stages left to right. -/
theorem registerSearch_spec (names : List String) (base : String) :
    ∀ (fuel m : Nat), (∃ j, m < j ∧ j ≤ m + fuel ∧ candSpec base j ∉ names) →
      ∃ k, m < k ∧
        registerSearch names { base := base, stage := m } fuel = some (candSpec base k) ∧
        candSpec base k ∉ names ∧ ∀ j, m < j → j < k → candSpec base j ∈ names := by
  intro fuel
  induction fuel with
  | zero =>
    intro m hex
    obtain ⟨j, hj1, hj2, _⟩ := hex
    omega
  | succ fuel ih =>
    intro m hex
    have hnext : ({ base := base, stage := m } : SnakeCaseNameGen).next
        = (candSpec base (m + 1), { base := base, stage := m + 1 }) := by
      simp only [SnakeCaseNameGen.next, candSpec]
      by_cases hm : m = 0
      · subst hm; rfl
      · rw [if_neg (show ¬m + 1 = 1 by omega), if_neg (show ¬m + 1 ≤ 1 by omega)]
    simp only [registerSearch, hnext]
    by_cases hmem : candSpec base (m + 1) ∈ names
    · rw [if_pos hmem]
      have hex2 : ∃ j, m + 1 < j ∧ j ≤ (m + 1) + fuel ∧ candSpec base j ∉ names := by
        obtain ⟨j, hj1, hj2, hj3⟩ := hex
        refine ⟨j, ?_, by omega, hj3⟩
        by_contra hle
        push_neg at hle
        have hj : j = m + 1 := by omega
        subst hj
        exact hj3 hmem
      obtain ⟨k, hk1, hk2, hk3, hk4⟩ := ih (m + 1) hex2
      refine ⟨k, by omega, hk2, hk3, ?_⟩
      intro j hj1 hj2
      by_cases hje : j = m + 1
      · subst hje; exact hmem
      · exact hk4 j (by omega) hj2
    · rw [if_neg hmem]
      exact ⟨m + 1, by omega, rfl, hmem, fun j hj1 hj2 => by omega⟩

/-- registerName always succeeds and assigns the first free candidate. -/
theorem registerName_spec (names : List String) (base : String) :
    ∃ k, 1 ≤ k ∧ registerName names base = some (candSpec base k) ∧
      candSpec base k ∉ names ∧ ∀ j, 1 ≤ j → j < k → candSpec base j ∈ names := by
  obtain ⟨j, hj1, hj2, hj3⟩ := exists_free_candidate names base
  obtain ⟨k, hk1, hk2, hk3, hk4⟩ :=
    registerSearch_spec names base (names.length + 1) 0 ⟨j, by omega, by omega, hj3⟩
  exact ⟨k, by omega, hk2, hk3, fun j2 ha hb => hk4 j2 (by omega) hb⟩

/-- The generator state after n steps from a fresh state. -/
theorem genIter_stage (base : String) (n : Nat) :
    genIter (SnakeCaseNameGen.withBase base) n = { base := base, stage := n } := by
  induction n with
  | zero => rfl
  | succ n ih => rw [genIter, ih]; rfl

/-- The n-th generated name follows the spec sequence. -/
theorem genNth_eq_candSpec (base : String) (n : Nat) (h : 1 ≤ n) :
    genNth base n = candSpec base n := by
  unfold genNth
  rw [genIter_stage]
  unfold SnakeCaseNameGen.next candSpec
  by_cases h1 : n = 1
  · subst h1; rfl
  · have hn : n - 1 + 1 = n := by omega
    simp only [hn]
    rw [if_neg h1, if_neg (by omega)]

/-- C7: iterating the source generator from a fresh state yields exactly the
sequence base, base_2, base_3, and so on; register, modelled from the spec
over this generator, assigns the first candidate of that sequence not in the
catalog; and registering x when x and x_2 are taken yields x_3. -/
theorem register_first_free_candidate (names : List String) (base : String) :
    (∀ n, 1 ≤ n → genNth base n = candSpec base n) ∧
    (∃ k, 1 ≤ k ∧ registerName names base = some (candSpec base k) ∧
      candSpec base k ∉ names ∧ ∀ j, 1 ≤ j → j < k → candSpec base j ∈ names) ∧
    registerName ["x", "x_2"] "x" = some "x_3" := by
  refine ⟨fun n hn => genNth_eq_candSpec base n hn, registerName_spec names base, ?_⟩
  rfl

/-! ## C2: import actions -/

/-- importFrames appends one Name tab per frame and one assigned catalog name
per frame, leaving all other fields unchanged. -/
theorem importFrames_spec (frames : List (String × DataFrame)) :
    ∀ app : App, ∃ assigned : List String,
      assigned.length = frames.length ∧
      importFrames app frames =
        { app with
          tabs := app.tabs
            ++ (frames.zip assigned).map fun pr => PaneState.new pr.1.2 (.Name pr.2),
          catalog := app.catalog ++ assigned } := by
  induction frames with
  | nil =>
    intro app
    refine ⟨[], rfl, ?_⟩
    simp [importFrames]
  | cons hd tl ih =>
    intro app
    obtain ⟨nm, df⟩ := hd
    obtain ⟨k, hk1, hreg, hk3, hk4⟩ := registerName_spec app.catalog nm
    have hreg2 : app.register nm
        = (candSpec nm k, { app with catalog := app.catalog ++ [candSpec nm k] }) := by
      unfold App.register
      rw [hreg]
    obtain ⟨rest, hrl, hrest⟩ := ih
      { app with
        catalog := app.catalog ++ [candSpec nm k],
        tabs := app.tabs ++ [PaneState.new df (.Name (candSpec nm k))] }
    refine ⟨candSpec nm k :: rest, by simp [hrl], ?_⟩
    rw [importFrames, hreg2]
    rw [show ({ app with catalog := app.catalog ++ [candSpec nm k] } : App).tabs
          ++ [PaneState.new df (.Name (candSpec nm k))]
        = app.tabs ++ [PaneState.new df (.Name (candSpec nm k))] from rfl]
    rw [hrest]
    simp

/-- C2 (amended): when the reader succeeds with at least one frame, every
one of the import arms registers each frame and opens one Name tab each; the
parquet, json, arrow, sqlite and fwf arms then emit TabSelect of the last tab
index, while the dsv arm emits no follow-up action. -/
theorem import_actions_register_open_select (ext : Ext) (app : App)
    (frames : List (String × DataFrame)) (src : String) (fmtj : JsonFormat)
    (sep qc : Char) (hh fw : Bool) (ws : List Nat) (sl : Nat)
    (hfr : ext.frames = .ok frames) (_hne : frames ≠ []) :
    ∃ assigned : List String,
      assigned.length = frames.length ∧
      (let app2 : App :=
        { app with
          tabs := app.tabs
            ++ (frames.zip assigned).map fun pr => PaneState.new pr.1.2 (.Name pr.2),
          catalog := app.catalog ++ assigned }
       execute ext (.ImportParquet src) app
           = .ok app2 (some (.TabSelect (app.tabs.length + frames.length - 1))) ∧
       execute ext (.ImportJson src fmtj) app
           = .ok app2 (some (.TabSelect (app.tabs.length + frames.length - 1))) ∧
       execute ext (.ImportArrow src) app
           = .ok app2 (some (.TabSelect (app.tabs.length + frames.length - 1))) ∧
       execute ext (.ImportSqlite src) app
           = .ok app2 (some (.TabSelect (app.tabs.length + frames.length - 1))) ∧
       execute ext (.ImportFwf src ws sl fw hh) app
           = .ok app2 (some (.TabSelect (app.tabs.length + frames.length - 1))) ∧
       execute ext (.ImportDsv src sep hh qc) app = .ok app2 none) := by
  obtain ⟨assigned, hlen, hif⟩ := importFrames_spec frames app
  refine ⟨assigned, hlen, ?_⟩
  have hlen2 : (app.tabs
      ++ (frames.zip assigned).map fun pr => PaneState.new pr.1.2 (.Name pr.2)).length
      = app.tabs.length + frames.length := by
    simp [List.length_zip, hlen]
  have hsel : importAndSelect ext app
      = .ok { app with
              tabs := app.tabs
                ++ (frames.zip assigned).map fun pr => PaneState.new pr.1.2 (.Name pr.2),
              catalog := app.catalog ++ assigned }
          (some (.TabSelect (app.tabs.length + frames.length - 1))) := by
    unfold importAndSelect
    rw [hfr]
    show ExecResult.ok (importFrames app frames)
        (some (.TabSelect ((importFrames app frames).tabs.length - 1))) = _
    rw [hif]
    show ExecResult.ok _
        (some (.TabSelect ((app.tabs
          ++ (frames.zip assigned).map fun pr => PaneState.new pr.1.2 (.Name pr.2)).length
          - 1))) = _
    rw [hlen2]
  have hdsv : execute ext (.ImportDsv src sep hh qc) app
      = .ok { app with
              tabs := app.tabs
                ++ (frames.zip assigned).map fun pr => PaneState.new pr.1.2 (.Name pr.2),
              catalog := app.catalog ++ assigned } none := by
    show (match ext.frames with
      | .error e => ExecResult.err app e
      | .ok frames2 => .ok (importFrames app frames2) none) = _
    rw [hfr]
    show ExecResult.ok (importFrames app frames) none = _
    rw [hif]
  exact ⟨hsel, hsel, hsel, hsel, hsel, hdsv⟩

/-- C2 witness: one parquet-like frame imported into the sample state. -/
theorem import_actions_register_open_select_witness :
    ∃ assigned : List String,
      assigned.length = ([("u", sampleFrame)] : List (String × DataFrame)).length ∧
      (let app2 : App :=
        { sampleApp with
          tabs := sampleApp.tabs
            ++ (([("u", sampleFrame)] : List (String × DataFrame)).zip assigned).map
                fun pr => PaneState.new pr.1.2 (.Name pr.2),
          catalog := sampleApp.catalog ++ assigned }
       execute dsvExt (.ImportParquet "/f") sampleApp
           = .ok app2 (some (.TabSelect (sampleApp.tabs.length
               + ([("u", sampleFrame)] : List (String × DataFrame)).length - 1))) ∧
       execute dsvExt (.ImportJson "/f" .Json) sampleApp
           = .ok app2 (some (.TabSelect (sampleApp.tabs.length
               + ([("u", sampleFrame)] : List (String × DataFrame)).length - 1))) ∧
       execute dsvExt (.ImportArrow "/f") sampleApp
           = .ok app2 (some (.TabSelect (sampleApp.tabs.length
               + ([("u", sampleFrame)] : List (String × DataFrame)).length - 1))) ∧
       execute dsvExt (.ImportSqlite "/f") sampleApp
           = .ok app2 (some (.TabSelect (sampleApp.tabs.length
               + ([("u", sampleFrame)] : List (String × DataFrame)).length - 1))) ∧
       execute dsvExt (.ImportFwf "/f" [] 0 false true) sampleApp
           = .ok app2 (some (.TabSelect (sampleApp.tabs.length
               + ([("u", sampleFrame)] : List (String × DataFrame)).length - 1))) ∧
       execute dsvExt (.ImportDsv "/f" ',' true '"') sampleApp = .ok app2 none) :=
  import_actions_register_open_select dsvExt sampleApp [("u", sampleFrame)] "/f" .Json
    ',' '"' true false [] 0 rfl (by simp)

/-- C2 counterexample: the dsv import arm registers and opens the tab but
returns no follow-up action, so no TabSelect is emitted, unlike the claim. -/
theorem import_dsv_no_select_counterexample :
    execute dsvExt (.ImportDsv "/f" ',' true '"') sampleApp
      = .ok { sampleApp with
              tabs := sampleApp.tabs ++ [PaneState.new sampleFrame (.Name "u")],
              catalog := sampleApp.catalog ++ ["u"] } none := rfl

end Tabiew
